import Mathlib

/-!
Shallow embedding of the presentation / synchronization layer of the
nicegfx repository (src/src/hal_state.rs and src/src/main.rs), together
with theorems settling the frozen claims about it.

The embedding keeps the control flow, field names and arithmetic of the
Rust source.  Backend (GPU driver) replies are passed in as explicit
parameters: the backbuffer returned by create_swapchain, and the outcome
of the fallible per-frame operations (fence wait, fence reset, image
acquisition, present).  Rust u32 arithmetic is modelled as Nat with an
explicit mod 2^32 where overflow can occur.  The static error strings of
the source are modelled by the constructors of HalError (source text in
the comments).  Panics that are reachable in the source (the
unimplemented raw-framebuffer backbuffer arm) are modelled as errors.
-/

namespace NiceGfx

/-- Channel type of a surface format; the source only ever inspects
whether base_format().1 equals ChannelType::Srgb. -/
inductive ChannelType
  | Unorm
  | Snorm
  | Uint
  | Sint
  | Sfloat
  | Srgb
deriving DecidableEq, Repr

/-- A surface format: an identifying tag plus the channel type returned
by base_format().1, which is all the source inspects. -/
structure Format where
  id : Nat
  channel : ChannelType
deriving DecidableEq, Repr

/-- The fixed default Format::Rgba8Srgb used when the surface advertises
no preferred-format list. -/
def rgba8Srgb : Format :=
  { id := 8, channel := ChannelType.Srgb }

/-- gfx_hal::window::PresentMode (exactly these four variants). -/
inductive PresentMode
  | Mailbox
  | Fifo
  | Relaxed
  | Immediate
deriving DecidableEq, Repr

/-- gfx_hal::window::CompositeAlpha.  The source variant names are
Opaque, Inherit, PreMultiplied, PostMultiplied. -/
inductive CompositeAlpha
  | opaqueAlpha
  | inherit
  | preMultiplied
  | postMultiplied
deriving DecidableEq, Repr

/-- The static error strings of hal_state.rs, as constructors.
  noPresentMode          = "No PresentMode values specified!"
  noCompositeAlpha       = "No CompositeAlpha values specified"
  emptyFormatList        = "Preffered format list was empty"
  surfaceNotColorCapable = "The surfade is not capable of supporting color"
  swapchainCreateFailed  = "Failed to create the swapchain"
  backbufferVariantUnhandled = the unimplemented panic on the
                           Backbuffer::Framebuffer arm, modelled as error
  fenceWaitFailed        = "Failed to wait on the fence!"
  fenceResetFailed       = "Could not reset the fence!"
  acquireImageFailed     = "Could not acquire an image from the swapchain!"
  presentFailed          = "Failed to present into the swapchain!" -/
inductive HalError
  | noPresentMode
  | noCompositeAlpha
  | emptyFormatList
  | surfaceNotColorCapable
  | swapchainCreateFailed
  | backbufferVariantUnhandled
  | fenceWaitFailed
  | fenceResetFailed
  | acquireImageFailed
  | presentFailed
deriving DecidableEq, Repr

/-- Decidable equality for Except results, so that concrete runs of the
model can be checked by decide. -/
instance exceptDecEq {ε α : Type} [DecidableEq ε] [DecidableEq α] :
    DecidableEq (Except ε α)
  | Except.ok x, Except.ok y =>
    match decEq x y with
    | isTrue h => isTrue (by subst h; rfl)
    | isFalse h => isFalse (fun hc => h (by cases hc; rfl))
  | Except.error x, Except.error y =>
    match decEq x y with
    | isTrue h => isTrue (by subst h; rfl)
    | isFalse h => isFalse (fun hc => h (by cases hc; rfl))
  | Except.ok _, Except.error _ => isFalse (fun hc => by cases hc)
  | Except.error _, Except.ok _ => isFalse (fun hc => by cases hc)

/-- The surface capabilities the source reads: caps.image_count.end
(a u32), caps.extents.end (width and height) and whether caps.usage
contains COLOR_ATTACHMENT. -/
structure SurfaceCaps where
  image_count_end : Nat
  extent_w : Nat
  extent_h : Nat
  usage_color_attachment : Bool
deriving DecidableEq, Repr

/-- The tuple returned by surface.compatibility(physical_device). -/
structure SurfaceCompat where
  caps : SurfaceCaps
  preferred_formats : Option (List Format)
  present_modes : List PresentMode
  composite_alphas : List CompositeAlpha
deriving DecidableEq, Repr

/-- The backbuffer returned by device.create_swapchain: either a list of
images (identified by numeric handles) or a raw framebuffer, which the
source does not handle (it panics with unimplemented). -/
inductive Backbuffer
  | images (imgs : List Nat)
  | framebuffer
deriving DecidableEq, Repr

/-- Present-mode selection, hal_state.rs lines 117-124: find the first
of [Mailbox, Fifo, Relaxed, Immediate] contained in the supported list. -/
def choosePresentMode (present_modes : List PresentMode) : Except HalError PresentMode :=
  match [PresentMode.Mailbox, PresentMode.Fifo, PresentMode.Relaxed,
      PresentMode.Immediate].find? (fun pm => decide (pm ∈ present_modes)) with
  | some pm => Except.ok pm
  | none => Except.error HalError.noPresentMode

/-- Composite-alpha selection, hal_state.rs lines 125-132: first of
[Opaque, Inherit, PreMultiplied, PostMultiplied] that is supported. -/
def chooseCompositeAlpha (composite_alphas : List CompositeAlpha) : Except HalError CompositeAlpha :=
  match [CompositeAlpha.opaqueAlpha, CompositeAlpha.inherit, CompositeAlpha.preMultiplied,
      CompositeAlpha.postMultiplied].find? (fun ca => decide (ca ∈ composite_alphas)) with
  | some ca => Except.ok ca
  | none => Except.error HalError.noCompositeAlpha

/-- Format selection, hal_state.rs lines 133-146: with no preferred list
use Format::Rgba8Srgb; otherwise the first format whose channel type is
Srgb; otherwise the first element of the list; error if the list is
empty. -/
def chooseFormat (preferred_formats : Option (List Format)) : Except HalError Format :=
  match preferred_formats with
  | none => Except.ok rgba8Srgb
  | some formats =>
    match formats.find? (fun f => decide (f.channel = ChannelType.Srgb)) with
    | some srgb_format => Except.ok srgb_format
    | none =>
      match formats.get? 0 with
      | some f => Except.ok f
      | none => Except.error HalError.emptyFormatList

/-- Wrapping u32 subtraction of 1, the release-profile semantics of
caps.image_count.end - 1 on a u32. -/
def u32SubOne (n : Nat) : Nat :=
  (n + 4294967295) % 4294967296

/-- Image count, hal_state.rs lines 148-152:
(caps.image_count.end - 1).min(3) under Mailbox, else .min(2),
in u32 arithmetic. -/
def imageCount (image_count_end : Nat) (present_mode : PresentMode) : Nat :=
  if present_mode = PresentMode.Mailbox then
    min (u32SubOne image_count_end) 3
  else
    min (u32SubOne image_count_end) 2

/-- The data the swapchain-construction block of new / recreate_swapchain
yields: the backbuffer images, the extent, the chosen format and the
configured image count (which becomes frames_in_flight). -/
structure SwapParts where
  images : List Nat
  extent_w : Nat
  extent_h : Nat
  format : Format
  image_count : Nat
deriving DecidableEq, Repr

/-- The swapchain-construction block shared by new (hal_state.rs lines
109-176) and recreate_swapchain (lines 363-430): select present mode,
composite alpha and format, compute extent and image count, require
color-attachment usage, then create the swapchain.  The backend reply is
the backbuffer parameter; none models a failing create_swapchain, and
the raw-framebuffer variant models the unimplemented panic as an
error. -/
def buildSwapchain (compat : SurfaceCompat) (backbuffer : Option Backbuffer) :
    Except HalError SwapParts :=
  match choosePresentMode compat.present_modes with
  | Except.error e => Except.error e
  | Except.ok present_mode =>
    match chooseCompositeAlpha compat.composite_alphas with
    | Except.error e => Except.error e
    | Except.ok _composite_alpha =>
      match chooseFormat compat.preferred_formats with
      | Except.error e => Except.error e
      | Except.ok format =>
        let image_count := imageCount compat.caps.image_count_end present_mode
        if compat.caps.usage_color_attachment then
          match backbuffer with
          | none => Except.error HalError.swapchainCreateFailed
          | some (Backbuffer.images imgs) =>
            Except.ok
              { images := imgs
                extent_w := compat.caps.extent_w
                extent_h := compat.caps.extent_h
                format := format
                image_count := image_count }
          | some Backbuffer.framebuffer =>
            Except.error HalError.backbufferVariantUnhandled
        else
          Except.error HalError.surfaceNotColorCapable

/-- The HalState fields the claims are about.  GPU handles carry no data
in the model: semaphores, command buffers, image views and framebuffers
are lists of units (their lengths are the contents of the corresponding
Rust vectors); a fence is a Bool which is true when the fence is
signaled or has a pending submission that will signal it (create_fence
true starts signaled), and false after a reset with no resubmission. -/
structure HalState where
  current_frame : Nat
  frames_in_flight : Nat
  in_flight_fences : List Bool
  render_finished_semaphores : List Unit
  image_available_semaphores : List Unit
  command_buffers : List Unit
  framebuffers : List Unit
  image_views : List Unit
  swapchain_image_count : Nat
  render_area_w : Nat
  render_area_h : Nat
deriving DecidableEq, Repr, Inhabited

/-- HalState::new, hal_state.rs lines 109-300 (device and adapter
selection, lines 72-107, only threads opaque handles through and is
omitted): build the swapchain, create frames_in_flight fences (signaled)
and semaphore pairs, then one image view per backbuffer image, one
framebuffer per image view and one command buffer per framebuffer;
current_frame starts at 0.  Render-pass, image-view, framebuffer and
sync-object creation are modelled as succeeding. -/
def HalState.new (compat : SurfaceCompat) (backbuffer : Option Backbuffer) :
    Except HalError HalState :=
  match buildSwapchain compat backbuffer with
  | Except.error e => Except.error e
  | Except.ok parts =>
    let frames_in_flight := parts.image_count
    let image_views := parts.images.map fun _ => ()
    let framebuffers := image_views.map fun _ => ()
    Except.ok
      { current_frame := 0
        frames_in_flight := frames_in_flight
        in_flight_fences := List.replicate frames_in_flight true
        render_finished_semaphores := List.replicate frames_in_flight ()
        image_available_semaphores := List.replicate frames_in_flight ()
        command_buffers := framebuffers.map fun _ => ()
        framebuffers := framebuffers
        image_views := image_views
        swapchain_image_count := parts.images.length
        render_area_w := parts.extent_w
        render_area_h := parts.extent_h }

/-- Observable device-level actions, used as trace events. -/
inductive Event
  | waitIdle
  | resetPool
  | destroyFramebuffer
  | destroyRenderPass
  | destroyImageView
  | destroySwapchain
  | createSwapchain
  | pollEvents
  | waitFence (slot : Nat)
  | resetFence (slot : Nat)
  | acquireImage
  | beginBuffer (image_index : Nat)
  | beginRenderPass (image_index : Nat)
  | finishBuffer (image_index : Nat)
  | submit (image_index : Nat) (fence_slot : Option Nat)
  | present (image_index : Nat)
deriving DecidableEq, Repr

/-- True for the command-recording, submission and presentation events. -/
def Event.isRecordSubmitOrPresent : Event → Bool
  | Event.beginBuffer _ => true
  | Event.beginRenderPass _ => true
  | Event.finishBuffer _ => true
  | Event.submit _ _ => true
  | Event.present _ => true
  | _ => false

/-- HalState::cleanup_swapchain, hal_state.rs lines 537-558: wait for
device idle, destroy (drain) every framebuffer, reset the command pool,
destroy the render pass, destroy (drain) every image view, destroy the
swapchain, in that order.  Returns the mutated state and the trace. -/
def HalState.cleanup_swapchain (s : HalState) : HalState × List Event :=
  let t1 : List Event := [Event.waitIdle]
  let t2 : List Event := s.framebuffers.map fun _ => Event.destroyFramebuffer
  let s := { s with framebuffers := [] }
  let t3 : List Event := [Event.resetPool]
  let t4 : List Event := [Event.destroyRenderPass]
  let t5 : List Event := s.image_views.map fun _ => Event.destroyImageView
  let s := { s with image_views := [] }
  let t6 : List Event := [Event.destroySwapchain]
  (s, t1 ++ t2 ++ t3 ++ t4 ++ t5 ++ t6)

/-- Modelled from the spec: the teardown order section 4.2 of the spec
claims for cleanup_swapchain (wait idle, THEN reset the command pool,
then framebuffers, render pass, image views, swapchain), written down
for comparison with the order the source actually performs. -/
def cleanupTraceSpec (s : HalState) : List Event :=
  Event.waitIdle :: Event.resetPool ::
    ((s.framebuffers.map fun _ => Event.destroyFramebuffer)
      ++ [Event.destroyRenderPass]
      ++ (s.image_views.map fun _ => Event.destroyImageView)
      ++ [Event.destroySwapchain])

/-- Reset every fence whose index lies in [lo, hi), walking the list
with its index; models device.reset_fences over the slice
in_flight_fences[lo..hi]. -/
def resetFencesFrom : List Bool → Nat → Nat → Nat → List Bool
  | [], _, _, _ => []
  | b :: rest, idx, lo, hi =>
    (if lo ≤ idx ∧ idx < hi then false else b) :: resetFencesFrom rest (idx + 1) lo hi

/-- device.reset_fences(&fences[lo..hi]). -/
def resetFencesRange (fences : List Bool) (lo hi : Nat) : List Bool :=
  resetFencesFrom fences 0 lo hi

/-- HalState::recreate_swapchain, hal_state.rs lines 356-507: run
cleanup_swapchain, reset the fences in the (empty) slice
current_frame..current_frame, rebuild the swapchain from the re-queried
surface compatibility, then install the new image views, framebuffers
and render area, set frames_in_flight to the new image count and advance
current_frame modulo the new frames_in_flight.  The fence and semaphore
vectors and the command-buffer vector are not recreated, exactly as in
the source.  Returns the state after the call and the result. -/
def HalState.recreate_swapchain (s : HalState) (compat : SurfaceCompat)
    (backbuffer : Option Backbuffer) : HalState × Except HalError Unit :=
  let s := (s.cleanup_swapchain).1
  let s := { s with
    in_flight_fences := resetFencesRange s.in_flight_fences s.current_frame s.current_frame }
  match buildSwapchain compat backbuffer with
  | Except.error e => (s, Except.error e)
  | Except.ok parts =>
    let image_views := parts.images.map fun _ => ()
    let framebuffers := image_views.map fun _ => ()
    ({ s with
        swapchain_image_count := parts.images.length
        render_area_w := parts.extent_w
        render_area_h := parts.extent_h
        image_views := image_views
        framebuffers := framebuffers
        frames_in_flight := parts.image_count
        current_frame := (s.current_frame + 1) % parts.image_count },
      Except.ok ())

/-- Outcome of the fallible backend operations inside one
draw_clear_frame call: the fence wait fails, the fence reset fails,
image acquisition fails, or an image index is acquired and the final
present succeeds or fails. -/
inductive DrawOutcome
  | waitFailed
  | resetFailed
  | acquireFailed
  | acquired (image_index : Nat) (present_ok : Bool)
deriving DecidableEq, Repr

/-- HalState::draw_clear_frame, hal_state.rs lines 301-355: read the
fence and semaphores of slot current_frame, advance current_frame to
(current_frame + 1) mod frames_in_flight before the first fallible
operation, then wait on the fence, reset it, acquire an image, record
the clear pass into the command buffer of the acquired image, submit
with the fence as completion signal, and present.  Returns the state
after the call, the result and the event trace. -/
def HalState.draw_clear_frame (s : HalState) (o : DrawOutcome) :
    (HalState × Except HalError Unit) × List Event :=
  let slot := s.current_frame
  let s := { s with current_frame := (s.current_frame + 1) % s.frames_in_flight }
  match o with
  | DrawOutcome.waitFailed =>
    ((s, Except.error HalError.fenceWaitFailed), [Event.waitFence slot])
  | DrawOutcome.resetFailed =>
    ((s, Except.error HalError.fenceResetFailed),
      [Event.waitFence slot, Event.resetFence slot])
  | DrawOutcome.acquireFailed =>
    let s := { s with in_flight_fences := s.in_flight_fences.set slot false }
    ((s, Except.error HalError.acquireImageFailed),
      [Event.waitFence slot, Event.resetFence slot, Event.acquireImage])
  | DrawOutcome.acquired i present_ok =>
    let s := { s with in_flight_fences := s.in_flight_fences.set slot true }
    ((s, if present_ok then Except.ok () else Except.error HalError.presentFailed),
      [Event.waitFence slot, Event.resetFence slot, Event.acquireImage,
        Event.beginBuffer i, Event.beginRenderPass i, Event.finishBuffer i,
        Event.submit i (some slot), Event.present i])

namespace MainLoop

/-!
The driving loop of src/src/main.rs (a standalone presentation loop that
inlines swapchain teardown and creation).  The loop state is the
rebuild_swapchain flag and swapchain_stuff, reduced to the image-view
and framebuffer counts it carries.  One iteration is modelled with no
window events and quitting = false; the backend replies (the image-view
and framebuffer counts of a freshly created swapchain, the acquisition
result and the present result) are parameters.
-/

/-- The mutable loop-local state of main: the rebuild flag and the
optional (frame_views, framebuffers) counts of swapchain_stuff. -/
structure LoopState where
  rebuild_swapchain : Bool
  swapchain_stuff : Option (Nat × Nat)
deriving DecidableEq, Repr, Inhabited

/-- One iteration of the main loop, main.rs lines 226-401: poll events
(none here, quitting false); if rebuild_swapchain and swapchain_stuff is
some, tear down (wait idle, reset the command pool, destroy every
framebuffer, destroy every image view, destroy the swapchain) and take
swapchain_stuff; if swapchain_stuff is none, clear the rebuild flag and
create a fresh swapchain (with new_counts views and framebuffers); reset
the command pool; acquire an image.  On acquisition failure set
rebuild_swapchain and continue; otherwise record the draw, submit
(fence None) and present, setting rebuild_swapchain when the present
fails. -/
def iterate (s : LoopState) (new_counts : Nat × Nat) (acquire : Option Nat)
    (present_ok : Bool) : LoopState × List Event :=
  let t0 : List Event := [Event.pollEvents]
  let (s, t1) :=
    match s.swapchain_stuff with
    | some (views, fbs) =>
      if s.rebuild_swapchain then
        ({ s with swapchain_stuff := none },
          [Event.waitIdle, Event.resetPool]
            ++ List.replicate fbs Event.destroyFramebuffer
            ++ List.replicate views Event.destroyImageView
            ++ [Event.destroySwapchain])
      else (s, ([] : List Event))
    | none => (s, ([] : List Event))
  let (s, t2) :=
    match s.swapchain_stuff with
    | none =>
      (({ rebuild_swapchain := false, swapchain_stuff := some new_counts } : LoopState),
        [Event.createSwapchain])
    | some _ => (s, ([] : List Event))
  let t3 : List Event := [Event.resetPool, Event.acquireImage]
  match acquire with
  | none => ({ s with rebuild_swapchain := true }, t0 ++ t1 ++ t2 ++ t3)
  | some i =>
    let t4 : List Event :=
      [Event.beginBuffer i, Event.beginRenderPass i, Event.finishBuffer i,
        Event.submit i none, Event.present i]
    ({ s with rebuild_swapchain := s.rebuild_swapchain || !present_ok },
      t0 ++ t1 ++ t2 ++ t3 ++ t4)

end MainLoop

/-!
Concrete inputs used by the counterexamples, the bug evaluations and
the witnesses.  All of them feed actual capability reports through
HalState.new, so the states they produce are reachable.
-/

/-- A capability report with image_count.end = 3 and only Fifo
supported: frames_in_flight becomes min(3 - 1, 2) = 2. -/
def compatTwo : SurfaceCompat :=
  { caps :=
      { image_count_end := 3
        extent_w := 800
        extent_h := 600
        usage_color_attachment := true }
    preferred_formats := none
    present_modes := [PresentMode.Fifo]
    composite_alphas := [CompositeAlpha.opaqueAlpha] }

/-- A backbuffer of two images. -/
def bbTwo : Backbuffer :=
  Backbuffer.images [0, 1]

/-- The state HalState.new produces from compatTwo and bbTwo
(frames_in_flight = 2). -/
def stateTwo : HalState :=
  match HalState.new compatTwo (some bbTwo) with
  | Except.ok s => s
  | Except.error _ => default

/-- A capability report with image_count.end = 2 and only Fifo
supported: frames_in_flight becomes min(2 - 1, 2) = 1. -/
def compatSingle : SurfaceCompat :=
  { caps :=
      { image_count_end := 2
        extent_w := 800
        extent_h := 600
        usage_color_attachment := true }
    preferred_formats := none
    present_modes := [PresentMode.Fifo]
    composite_alphas := [CompositeAlpha.opaqueAlpha] }

/-- A backbuffer of one image. -/
def bbSingle : Backbuffer :=
  Backbuffer.images [0]

/-- The state HalState.new produces from compatSingle and bbSingle
(frames_in_flight = 1). -/
def stateSingle : HalState :=
  match HalState.new compatSingle (some bbSingle) with
  | Except.ok s => s
  | Except.error _ => default

/-- A capability report with image_count.end = 5 and Mailbox supported:
the derived image count is min(5 - 1, 3) = 3. -/
def compatMailbox : SurfaceCompat :=
  { caps :=
      { image_count_end := 5
        extent_w := 1024
        extent_h := 768
        usage_color_attachment := true }
    preferred_formats := none
    present_modes := [PresentMode.Mailbox, PresentMode.Fifo]
    composite_alphas := [CompositeAlpha.opaqueAlpha] }

/-- A backbuffer of three images. -/
def bbThree : Backbuffer :=
  Backbuffer.images [0, 1, 2]

/-- A capability report with image_count.end = 1: the derived image
count is min(1 - 1, 2) = 0. -/
def compatOne : SurfaceCompat :=
  { caps :=
      { image_count_end := 1
        extent_w := 800
        extent_h := 600
        usage_color_attachment := true }
    preferred_formats := none
    present_modes := [PresentMode.Fifo]
    composite_alphas := [CompositeAlpha.opaqueAlpha] }

/-- The state HalState.new produces from compatOne (frames_in_flight
becomes 0, with empty synchronization vectors). -/
def stateOne : HalState :=
  match HalState.new compatOne (some bbSingle) with
  | Except.ok s => s
  | Except.error _ => default

/-- The per-frame synchronization set is sized to frames_in_flight. -/
def SyncSized (s : HalState) : Prop :=
  s.in_flight_fences.length = s.frames_in_flight ∧
    s.image_available_semaphores.length = s.frames_in_flight ∧
    s.render_finished_semaphores.length = s.frames_in_flight

/-- SyncSized is decidable, so concrete states can be checked. -/
instance syncSizedDecidable (s : HalState) : Decidable (SyncSized s) :=
  inferInstanceAs (Decidable (s.in_flight_fences.length = s.frames_in_flight ∧
    s.image_available_semaphores.length = s.frames_in_flight ∧
    s.render_finished_semaphores.length = s.frames_in_flight))

/-!  Helper lemmas.  -/

/-- Resetting the empty index range leaves the fence list unchanged. -/
theorem resetFencesFrom_empty (l : List Bool) : ∀ (idx lo : Nat),
    resetFencesFrom l idx lo lo = l := by
  induction l with
  | nil => intro idx lo; rfl
  | cons b rest ih =>
    intro idx lo
    simp only [resetFencesFrom]
    rw [if_neg (by omega), ih]

/-- Rotating by one modulo n moves off the current slot when n has at
least two slots. -/
theorem succ_mod_ne_self (n c : Nat) (h2 : 2 ≤ n) (hc : c < n) : (c + 1) % n ≠ c := by
  rcases Nat.lt_or_ge (c + 1) n with h | h
  · rw [Nat.mod_eq_of_lt h]; omega
  · have he : c + 1 = n := by omega
    rw [he, Nat.mod_self]; omega

/-- countP over a replicate of an element the predicate rejects. -/
theorem countP_replicate_not {α : Type} (p : α → Bool) (a : α) (n : Nat)
    (h : p a = false) : (List.replicate n a).countP p = 0 := by
  induction n with
  | zero => rfl
  | succ k ih => simp [List.replicate_succ, List.countP_cons, h, ih]

/-- Wrapping u32 subtraction of one agrees with Nat subtraction away
from zero. -/
theorem u32SubOne_eq_sub (n : Nat) (h1 : 1 ≤ n) (h2 : n < 4294967296) :
    u32SubOne n = n - 1 := by
  unfold u32SubOne
  have h3 : n + 4294967295 = (n - 1) + 1 * 4294967296 := by omega
  rw [h3, Nat.add_mul_mod_self_right, Nat.mod_eq_of_lt (by omega)]

/-- HalState.new sizes each per-frame synchronization vector to
frames_in_flight. -/
theorem new_sync_sized (compat : SurfaceCompat) (bb : Option Backbuffer)
    (s : HalState) (h : HalState.new compat bb = Except.ok s) : SyncSized s := by
  cases hb : buildSwapchain compat bb with
  | error e => simp [HalState.new, hb] at h
  | ok parts =>
    simp only [HalState.new, hb, Except.ok.injEq] at h
    subst h
    simp [SyncSized]

/-- draw_clear_frame never changes the length of a synchronization
vector nor frames_in_flight, so it preserves SyncSized. -/
theorem draw_preserves_sync_sized (s : HalState) (o : DrawOutcome)
    (h : SyncSized s) : SyncSized ((s.draw_clear_frame o).1.1) := by
  obtain ⟨h1, h2, h3⟩ := h
  cases o <;> simp [HalState.draw_clear_frame, SyncSized, List.length_set, h1, h2, h3]

/-!  Claim theorems.  -/

/-- C3: format selection returns the default Rgba8Srgb when no
preferred list is advertised; returns an advertised sRGB-channel format
whenever the list contains one; returns the first list element when the
list is nonempty without any sRGB format; and fails with the
empty-format-list error exactly when the advertised list is empty. -/
theorem format_selection_spec (pf : Option (List Format)) :
    (pf = none → chooseFormat pf = Except.ok rgba8Srgb) ∧
    (∀ (fs : List Format) (f₀ : Format), pf = some fs → f₀ ∈ fs →
      f₀.channel = ChannelType.Srgb →
      ∃ f, chooseFormat pf = Except.ok f ∧ f ∈ fs ∧ f.channel = ChannelType.Srgb) ∧
    (∀ (f₀ : Format) (rest : List Format), pf = some (f₀ :: rest) →
      (∀ f ∈ f₀ :: rest, f.channel ≠ ChannelType.Srgb) →
      chooseFormat pf = Except.ok f₀) ∧
    (chooseFormat pf = Except.error HalError.emptyFormatList ↔ pf = some []) := by
  refine ⟨?_, ?_, ?_, ?_⟩
  · intro h; subst h; rfl
  · intro fs f₀ hpf hmem hsrgb
    subst hpf
    cases hfind : fs.find? (fun f => decide (f.channel = ChannelType.Srgb)) with
    | some g =>
      refine ⟨g, ?_, List.mem_of_find?_eq_some hfind, ?_⟩
      · simp [chooseFormat, hfind]
      · have := List.find?_some hfind
        simpa using this
    | none =>
      exfalso
      have := List.find?_eq_none.mp hfind f₀ hmem
      simp [hsrgb] at this
  · intro f₀ rest hpf hall
    subst hpf
    have hfind : (f₀ :: rest).find? (fun f => decide (f.channel = ChannelType.Srgb)) = none := by
      refine List.find?_eq_none.mpr ?_
      intro x hx
      simpa using hall x hx
    simp [chooseFormat, hfind]
  · constructor
    · intro h
      cases pf with
      | none => simp [chooseFormat] at h
      | some fs =>
        cases fs with
        | nil => rfl
        | cons a l =>
          cases hfind : (a :: l).find? (fun f => decide (f.channel = ChannelType.Srgb)) with
          | some g => simp [chooseFormat, hfind] at h
          | none => simp [chooseFormat, hfind] at h
    · intro h; subst h; rfl

/-- C3 witness: on the list [Rgba8Unorm-like, Bgra8Srgb-like] the
selection returns the sRGB entry. -/
theorem format_selection_spec_witness :
    ((some [({ id := 4, channel := ChannelType.Unorm } : Format),
        ({ id := 9, channel := ChannelType.Srgb } : Format)] =
      some [({ id := 4, channel := ChannelType.Unorm } : Format),
        ({ id := 9, channel := ChannelType.Srgb } : Format)]) ∧
      ({ id := 9, channel := ChannelType.Srgb } : Format) ∈
        [({ id := 4, channel := ChannelType.Unorm } : Format),
          ({ id := 9, channel := ChannelType.Srgb } : Format)] ∧
      ({ id := 9, channel := ChannelType.Srgb } : Format).channel = ChannelType.Srgb) ∧
    ∃ f, chooseFormat (some [({ id := 4, channel := ChannelType.Unorm } : Format),
        ({ id := 9, channel := ChannelType.Srgb } : Format)]) = Except.ok f ∧
      f ∈ [({ id := 4, channel := ChannelType.Unorm } : Format),
        ({ id := 9, channel := ChannelType.Srgb } : Format)] ∧
      f.channel = ChannelType.Srgb :=
  ⟨⟨rfl, by decide, rfl⟩,
    (format_selection_spec (some [({ id := 4, channel := ChannelType.Unorm } : Format),
        ({ id := 9, channel := ChannelType.Srgb } : Format)])).2.1
      [({ id := 4, channel := ChannelType.Unorm } : Format),
        ({ id := 9, channel := ChannelType.Srgb } : Format)]
      ({ id := 9, channel := ChannelType.Srgb } : Format) rfl (by decide) rfl⟩

/-- C4: present-mode selection prefers Mailbox, then Fifo, then
Relaxed, then Immediate, and errors exactly when none of the four is
supported. -/
theorem present_mode_selection_spec (modes : List PresentMode) :
    (PresentMode.Mailbox ∈ modes →
      choosePresentMode modes = Except.ok PresentMode.Mailbox) ∧
    (PresentMode.Mailbox ∉ modes → PresentMode.Fifo ∈ modes →
      choosePresentMode modes = Except.ok PresentMode.Fifo) ∧
    (PresentMode.Mailbox ∉ modes → PresentMode.Fifo ∉ modes →
      PresentMode.Relaxed ∈ modes →
      choosePresentMode modes = Except.ok PresentMode.Relaxed) ∧
    (PresentMode.Mailbox ∉ modes → PresentMode.Fifo ∉ modes →
      PresentMode.Relaxed ∉ modes → PresentMode.Immediate ∈ modes →
      choosePresentMode modes = Except.ok PresentMode.Immediate) ∧
    (choosePresentMode modes = Except.error HalError.noPresentMode ↔
      PresentMode.Mailbox ∉ modes ∧ PresentMode.Fifo ∉ modes ∧
        PresentMode.Relaxed ∉ modes ∧ PresentMode.Immediate ∉ modes) := by
  by_cases h1 : PresentMode.Mailbox ∈ modes <;>
    by_cases h2 : PresentMode.Fifo ∈ modes <;>
      by_cases h3 : PresentMode.Relaxed ∈ modes <;>
        by_cases h4 : PresentMode.Immediate ∈ modes <;>
          simp [choosePresentMode, List.find?, h1, h2, h3, h4]

/-- C4 witness: with only Fifo supported, Fifo is selected. -/
theorem present_mode_selection_spec_witness :
    (PresentMode.Mailbox ∉ [PresentMode.Fifo] ∧ PresentMode.Fifo ∈ [PresentMode.Fifo]) ∧
    choosePresentMode [PresentMode.Fifo] = Except.ok PresentMode.Fifo :=
  ⟨⟨by decide, by decide⟩,
    (present_mode_selection_spec [PresentMode.Fifo]).2.1 (by decide) (by decide)⟩

/-- C5 counterexample: a capability report with image_count.end = 1 is
accepted end to end by HalState.new (the code has no lower-bound
guard), yet the computed image count is min(1 - 1, 2) = 0, violating
the claimed bound 1 <= count. -/
theorem image_count_lower_bound_violated :
    HalState.new compatOne (some bbSingle) = Except.ok stateOne ∧
    stateOne.frames_in_flight = 0 ∧
    imageCount 1 PresentMode.Fifo = 0 ∧
    ¬ (1 ≤ imageCount 1 PresentMode.Fifo) := by decide

/-- C5 (amended): whenever caps.image_count.end is at least 2 (and a
valid u32), the chosen count equals min(end - 1, 3) under Mailbox and
min(end - 1, 2) otherwise, and satisfies 1 <= count <= end - 1 with
count <= 3 under Mailbox and count <= 2 otherwise.  When end = 1 the
count is 0 (see the counterexample); when end = 0 the u32 subtraction
wraps and the count becomes 3 or 2. -/
theorem image_count_bounds (endc : Nat) (pm : PresentMode)
    (h2 : 2 ≤ endc) (hlt : endc < 4294967296) :
    1 ≤ imageCount endc pm ∧ imageCount endc pm ≤ endc - 1 ∧
    imageCount endc pm ≤ 3 ∧
    (pm ≠ PresentMode.Mailbox → imageCount endc pm ≤ 2) ∧
    imageCount endc pm =
      (if pm = PresentMode.Mailbox then min (endc - 1) 3 else min (endc - 1) 2) := by
  have hs := u32SubOne_eq_sub endc (by omega) hlt
  unfold imageCount
  rw [hs]
  by_cases hm : pm = PresentMode.Mailbox <;> simp [hm] <;> omega

/-- C5 witness: end = 5 with Mailbox gives count 3 within all bounds. -/
theorem image_count_bounds_witness :
    (2 ≤ 5 ∧ 5 < 4294967296) ∧
    (1 ≤ imageCount 5 PresentMode.Mailbox ∧ imageCount 5 PresentMode.Mailbox ≤ 5 - 1 ∧
      imageCount 5 PresentMode.Mailbox ≤ 3 ∧
      (PresentMode.Mailbox ≠ PresentMode.Mailbox → imageCount 5 PresentMode.Mailbox ≤ 2) ∧
      imageCount 5 PresentMode.Mailbox =
        (if PresentMode.Mailbox = PresentMode.Mailbox then min (5 - 1) 3
          else min (5 - 1) 2)) :=
  ⟨⟨by decide, by decide⟩, image_count_bounds 5 PresentMode.Mailbox (by decide) (by decide)⟩

/-- C9: the reset-fences call recreate_swapchain performs covers the
empty slice current_frame..current_frame, so it changes no fence, for
every fence vector and every current_frame; consequently
recreate_swapchain returns the fence vector it started with. -/
theorem recreate_fence_reset_noop :
    (∀ (fences : List Bool) (cf : Nat), resetFencesRange fences cf cf = fences) ∧
    (∀ (s : HalState) (compat : SurfaceCompat) (bb : Option Backbuffer),
      ((s.recreate_swapchain compat bb).1).in_flight_fences = s.in_flight_fences) := by
  have hr : ∀ (fences : List Bool) (cf : Nat), resetFencesRange fences cf cf = fences :=
    fun fences cf => resetFencesFrom_empty fences 0 cf
  refine ⟨hr, ?_⟩
  intro s compat bb
  cases h : buildSwapchain compat bb <;>
    simp [HalState.recreate_swapchain, HalState.cleanup_swapchain, h, hr]

/-- C6 counterexample: on a state with two framebuffers and two image
views produced by HalState.new, the teardown trace destroys the
framebuffers BEFORE resetting the command pool, so it differs from the
order the claim states (wait idle, reset pool, destroy framebuffers,
render pass, image views, swapchain). -/
theorem cleanup_order_differs_from_spec :
    (stateTwo.cleanup_swapchain).2 =
      [Event.waitIdle, Event.destroyFramebuffer, Event.destroyFramebuffer,
        Event.resetPool, Event.destroyRenderPass, Event.destroyImageView,
        Event.destroyImageView, Event.destroySwapchain] ∧
    (stateTwo.cleanup_swapchain).2 ≠ cleanupTraceSpec stateTwo := by decide

/-- C6 (amended): swapchain teardown performs, in this exact order:
wait for device idle, destroy all framebuffers, reset the command pool,
destroy the render pass, destroy all image views, destroy the
swapchain. -/
theorem cleanup_trace_order (s : HalState) :
    (s.cleanup_swapchain).2 =
      Event.waitIdle ::
        ((s.framebuffers.map fun _ => Event.destroyFramebuffer)
          ++ Event.resetPool :: Event.destroyRenderPass ::
            ((s.image_views.map fun _ => Event.destroyImageView)
              ++ [Event.destroySwapchain])) := by
  simp [HalState.cleanup_swapchain]

/-- C7: after a successful HalState.new and after a successful
recreate_swapchain, the stored image-view count equals the stored
framebuffer count, and both equal the number of images of the newly
created swapchain. -/
theorem views_framebuffers_image_counts_agree :
    (∀ (compat : SurfaceCompat) (bb : Option Backbuffer) (s : HalState),
      HalState.new compat bb = Except.ok s →
      s.image_views.length = s.framebuffers.length ∧
      s.framebuffers.length = s.swapchain_image_count) ∧
    (∀ (s : HalState) (compat : SurfaceCompat) (bb : Option Backbuffer),
      (s.recreate_swapchain compat bb).2 = Except.ok () →
      ((s.recreate_swapchain compat bb).1).image_views.length =
        ((s.recreate_swapchain compat bb).1).framebuffers.length ∧
      ((s.recreate_swapchain compat bb).1).framebuffers.length =
        ((s.recreate_swapchain compat bb).1).swapchain_image_count) := by
  constructor
  · intro compat bb s hnew
    cases hb : buildSwapchain compat bb with
    | error e => simp [HalState.new, hb] at hnew
    | ok parts =>
      simp only [HalState.new, hb, Except.ok.injEq] at hnew
      subst hnew
      simp
  · intro s compat bb hok
    cases hb : buildSwapchain compat bb with
    | error e => simp [HalState.recreate_swapchain, hb] at hok
    | ok parts => simp [HalState.recreate_swapchain, hb]

/-- C7 witness: the state built from compatTwo and a two-image
backbuffer has two image views, two framebuffers and a two-image
swapchain. -/
theorem views_framebuffers_image_counts_agree_witness :
    HalState.new compatTwo (some bbTwo) = Except.ok stateTwo ∧
    (stateTwo.image_views.length = stateTwo.framebuffers.length ∧
      stateTwo.framebuffers.length = stateTwo.swapchain_image_count) :=
  ⟨by decide,
    views_framebuffers_image_counts_agree.1 compatTwo (some bbTwo) stateTwo (by decide)⟩

/-- C1 (code bug, evaluated at the failing input): a state created with
frames_in_flight = 2 satisfies the sizing invariant, but a successful
recreate_swapchain under capabilities that re-derive an image count of
3 sets frames_in_flight := 3 while leaving the fence and semaphore
vectors at length 2, so the invariant is violated and, after one more
successful frame, current_frame reaches 2 — an out-of-bounds index into
the length-2 fence vector on the following call. -/
theorem sync_set_not_resized_on_recreate :
    HalState.new compatTwo (some bbTwo) = Except.ok stateTwo ∧
    SyncSized stateTwo ∧
    stateTwo.frames_in_flight = 2 ∧
    (stateTwo.recreate_swapchain compatMailbox (some bbThree)).2 = Except.ok () ∧
    ((stateTwo.recreate_swapchain compatMailbox (some bbThree)).1).frames_in_flight = 3 ∧
    ((stateTwo.recreate_swapchain compatMailbox (some bbThree)).1).in_flight_fences.length = 2 ∧
    ¬ SyncSized ((stateTwo.recreate_swapchain compatMailbox (some bbThree)).1) ∧
    ((((stateTwo.recreate_swapchain compatMailbox (some bbThree)).1).draw_clear_frame
        (DrawOutcome.acquired 0 true)).1.1).current_frame = 2 ∧
    ¬ (((((stateTwo.recreate_swapchain compatMailbox (some bbThree)).1).draw_clear_frame
          (DrawOutcome.acquired 0 true)).1.1).current_frame <
        ((((stateTwo.recreate_swapchain compatMailbox (some bbThree)).1).draw_clear_frame
          (DrawOutcome.acquired 0 true)).1.1).in_flight_fences.length) := by decide

/-- C2 counterexample: frames_in_flight = 1 is reachable (a capability
report with image_count.end = 2 and Fifo gives min(2 - 1, 2) = 1); on
that state a call that fails at image acquisition waits on and resets
fence slot 0 without resubmitting it, and leaves current_frame at 0, so
the immediately following call waits on the same fence slot 0 — the
same fence twice with no intervening reset-and-resubmit. -/
theorem single_flight_frame_repeats_fence_slot :
    HalState.new compatSingle (some bbSingle) = Except.ok stateSingle ∧
    stateSingle.frames_in_flight = 1 ∧
    stateSingle.current_frame = 0 ∧
    (stateSingle.draw_clear_frame DrawOutcome.acquireFailed).1.2 =
      Except.error HalError.acquireImageFailed ∧
    (stateSingle.draw_clear_frame DrawOutcome.acquireFailed).2 =
      [Event.waitFence 0, Event.resetFence 0, Event.acquireImage] ∧
    ((stateSingle.draw_clear_frame DrawOutcome.acquireFailed).1.1).current_frame = 0 := by
  decide

/-- C2 (amended): draw_clear_frame reassigns current_frame to
(current_frame + 1) mod frames_in_flight on entry, before any fallible
operation — the reassignment happens for every outcome, including the
error returns, and the emitted trace starts with the wait on the entry
slot — and, provided frames_in_flight is at least 2, the next call
enters on a different fence slot, so two consecutive calls never wait
on the same fence. -/
theorem frame_advances_before_fallible_ops (s : HalState) (o : DrawOutcome)
    (h2 : 2 ≤ s.frames_in_flight) (hc : s.current_frame < s.frames_in_flight) :
    ((s.draw_clear_frame o).1.1).current_frame =
      (s.current_frame + 1) % s.frames_in_flight ∧
    ((s.draw_clear_frame o).1.1).current_frame ≠ s.current_frame ∧
    ((s.draw_clear_frame o).2).head? = some (Event.waitFence s.current_frame) := by
  have hne := succ_mod_ne_self s.frames_in_flight s.current_frame h2 hc
  cases o <;> exact ⟨rfl, hne, rfl⟩

/-- C2 witness: on the two-slot state, an acquisition-failure call still
advances current_frame from 0 to 1, off the entered slot. -/
theorem frame_advances_before_fallible_ops_witness :
    (2 ≤ stateTwo.frames_in_flight ∧ stateTwo.current_frame < stateTwo.frames_in_flight) ∧
    (((stateTwo.draw_clear_frame DrawOutcome.acquireFailed).1.1).current_frame =
        (stateTwo.current_frame + 1) % stateTwo.frames_in_flight ∧
      ((stateTwo.draw_clear_frame DrawOutcome.acquireFailed).1.1).current_frame ≠
        stateTwo.current_frame ∧
      ((stateTwo.draw_clear_frame DrawOutcome.acquireFailed).2).head? =
        some (Event.waitFence stateTwo.current_frame)) :=
  ⟨⟨by decide, by decide⟩,
    frame_advances_before_fallible_ops stateTwo DrawOutcome.acquireFailed
      (by decide) (by decide)⟩

/-- C10 counterexample: on the reachable single-slot state
(frames_in_flight = 1), a call that fails at image acquisition does
return the acquisition error with the entered fence reset to
unsignaled, but current_frame ends EQUAL to the entered slot — it has
not advanced past it. -/
theorem acquire_error_single_slot_no_advance :
    HalState.new compatSingle (some bbSingle) = Except.ok stateSingle ∧
    (stateSingle.draw_clear_frame DrawOutcome.acquireFailed).1.2 =
      Except.error HalError.acquireImageFailed ∧
    ((stateSingle.draw_clear_frame DrawOutcome.acquireFailed).1.1).current_frame =
      stateSingle.current_frame ∧
    ((stateSingle.draw_clear_frame DrawOutcome.acquireFailed).1.1).in_flight_fences[stateSingle.current_frame]? = some false := by decide

/-- C10 (amended): whenever draw_clear_frame returns the
image-acquisition error, the fence of the entered slot has been waited
on and reset to the unsignaled state, no submission that would signal
it is made by the call, and current_frame has already been reassigned
to (slot + 1) mod frames_in_flight — which lies past the slot whenever
frames_in_flight is at least 2 — so the state is observably changed
even though the call reports an error. -/
theorem acquire_error_observable_state_change (s : HalState)
    (hwf : s.current_frame < s.in_flight_fences.length) :
    (s.draw_clear_frame DrawOutcome.acquireFailed).1.2 =
      Except.error HalError.acquireImageFailed ∧
    ((s.draw_clear_frame DrawOutcome.acquireFailed).1.1).in_flight_fences[s.current_frame]? = some false ∧
    (∀ (i : Nat) (fs : Option Nat),
      Event.submit i fs ∉ (s.draw_clear_frame DrawOutcome.acquireFailed).2) ∧
    ((s.draw_clear_frame DrawOutcome.acquireFailed).1.1).current_frame =
      (s.current_frame + 1) % s.frames_in_flight ∧
    (2 ≤ s.frames_in_flight → s.current_frame < s.frames_in_flight →
      ((s.draw_clear_frame DrawOutcome.acquireFailed).1.1).current_frame ≠
        s.current_frame) := by
  refine ⟨rfl, ?_, ?_, rfl, ?_⟩
  · exact List.getElem?_set_eq_of_lt false hwf
  · intro i fs hmem
    simp [HalState.draw_clear_frame] at hmem
  · intro h2 hcf
    exact succ_mod_ne_self s.frames_in_flight s.current_frame h2 hcf

/-- C10 witness: the two-slot state after an acquisition failure shows
the error result, the reset fence, the absence of a submission and the
advanced counter. -/
theorem acquire_error_observable_state_change_witness :
    (stateTwo.current_frame < stateTwo.in_flight_fences.length) ∧
    ((stateTwo.draw_clear_frame DrawOutcome.acquireFailed).1.2 =
        Except.error HalError.acquireImageFailed ∧
      ((stateTwo.draw_clear_frame DrawOutcome.acquireFailed).1.1).in_flight_fences[stateTwo.current_frame]? = some false ∧
      (∀ (i : Nat) (fs : Option Nat),
        Event.submit i fs ∉ (stateTwo.draw_clear_frame DrawOutcome.acquireFailed).2) ∧
      ((stateTwo.draw_clear_frame DrawOutcome.acquireFailed).1.1).current_frame =
        (stateTwo.current_frame + 1) % stateTwo.frames_in_flight ∧
      (2 ≤ stateTwo.frames_in_flight → stateTwo.current_frame < stateTwo.frames_in_flight →
        ((stateTwo.draw_clear_frame DrawOutcome.acquireFailed).1.1).current_frame ≠
          stateTwo.current_frame)) :=
  ⟨by decide, acquire_error_observable_state_change stateTwo (by decide)⟩

/-- C8: when image acquisition fails, draw_clear_frame returns an error
having emitted no recording, submission or presentation event; and in
the driving loop of main.rs, an iteration whose acquisition fails (from
a normal running state) records, submits and presents nothing, sets the
rebuild flag, and the following iteration performs exactly one
swapchain creation before its acquisition attempt. -/
theorem acquire_failure_no_work_single_recreate :
    (∀ (s : HalState),
      (s.draw_clear_frame DrawOutcome.acquireFailed).1.2 =
        Except.error HalError.acquireImageFailed ∧
      ∀ e ∈ (s.draw_clear_frame DrawOutcome.acquireFailed).2,
        e.isRecordSubmitOrPresent = false) ∧
    (∀ (s0 : MainLoop.LoopState) (views fbs : Nat) (nn1 nn2 : Nat × Nat)
        (p1 p2 : Bool) (ar : Option Nat),
      s0.rebuild_swapchain = false → s0.swapchain_stuff = some (views, fbs) →
      (∀ e ∈ (MainLoop.iterate s0 nn1 none p1).2, e.isRecordSubmitOrPresent = false) ∧
      (MainLoop.iterate s0 nn1 none p1).1.rebuild_swapchain = true ∧
      (MainLoop.iterate s0 nn1 none p1).1.swapchain_stuff = some (views, fbs) ∧
      ∃ pre post,
        (MainLoop.iterate (MainLoop.iterate s0 nn1 none p1).1 nn2 ar p2).2 =
          pre ++ Event.acquireImage :: post ∧
        Event.acquireImage ∉ pre ∧
        pre.countP (fun e => decide (e = Event.createSwapchain)) = 1) := by
  constructor
  · intro s
    refine ⟨rfl, ?_⟩
    intro e he
    simp only [HalState.draw_clear_frame, List.mem_cons, List.not_mem_nil, or_false] at he
    rcases he with rfl | rfl | rfl <;> rfl
  · intro s0 views fbs nn1 nn2 p1 p2 ar hrb hst
    obtain ⟨rb, st⟩ := s0
    simp only at hrb hst
    subst hrb
    subst hst
    refine ⟨?_, rfl, rfl, ?_⟩
    · intro e he
      simp [MainLoop.iterate] at he
      rcases he with rfl | rfl | rfl <;> rfl
    · refine ⟨[Event.pollEvents, Event.waitIdle, Event.resetPool]
          ++ List.replicate fbs Event.destroyFramebuffer
          ++ List.replicate views Event.destroyImageView
          ++ [Event.destroySwapchain, Event.createSwapchain, Event.resetPool],
        (match ar with
          | none => []
          | some i =>
            [Event.beginBuffer i, Event.beginRenderPass i, Event.finishBuffer i,
              Event.submit i none, Event.present i]), ?_, ?_, ?_⟩
      · cases ar <;>
          simp [MainLoop.iterate, List.append_assoc]
      · simp [List.mem_append, List.mem_replicate]
      · simp [List.countP_append, List.countP_cons,
          countP_replicate_not (fun e => decide (e = Event.createSwapchain))
            Event.destroyFramebuffer fbs rfl,
          countP_replicate_not (fun e => decide (e = Event.createSwapchain))
            Event.destroyImageView views rfl]

/-- C8 witness: a concrete running loop state with a two-image
swapchain, a failed acquisition, then a successful next iteration. -/
theorem acquire_failure_no_work_single_recreate_witness :
    (({ rebuild_swapchain := false, swapchain_stuff := some (2, 2) } :
        MainLoop.LoopState).rebuild_swapchain = false ∧
      ({ rebuild_swapchain := false, swapchain_stuff := some (2, 2) } :
        MainLoop.LoopState).swapchain_stuff = some (2, 2)) ∧
    ((∀ e ∈ (MainLoop.iterate
          ({ rebuild_swapchain := false, swapchain_stuff := some (2, 2) } :
            MainLoop.LoopState) (2, 2) none true).2,
        e.isRecordSubmitOrPresent = false) ∧
      (MainLoop.iterate
          ({ rebuild_swapchain := false, swapchain_stuff := some (2, 2) } :
            MainLoop.LoopState) (2, 2) none true).1.rebuild_swapchain = true ∧
      (MainLoop.iterate
          ({ rebuild_swapchain := false, swapchain_stuff := some (2, 2) } :
            MainLoop.LoopState) (2, 2) none true).1.swapchain_stuff = some (2, 2) ∧
      ∃ pre post,
        (MainLoop.iterate
            (MainLoop.iterate
              ({ rebuild_swapchain := false, swapchain_stuff := some (2, 2) } :
                MainLoop.LoopState) (2, 2) none true).1 (2, 2) (some 0) true).2 =
          pre ++ Event.acquireImage :: post ∧
        Event.acquireImage ∉ pre ∧
        pre.countP (fun e => decide (e = Event.createSwapchain)) = 1) :=
  ⟨⟨rfl, rfl⟩,
    acquire_failure_no_work_single_recreate.2
      ({ rebuild_swapchain := false, swapchain_stuff := some (2, 2) } : MainLoop.LoopState)
      2 2 (2, 2) (2, 2) true true (some 0) rfl rfl⟩

end NiceGfx
